import Mathlib

/-!
Shallow embedding of the reconciliation core of the OneLogin apps v2 service
(`src/pkg/services/apps/v2.go`): the parent App lifecycle (`Create`, `Update`,
`GetOne`), the per-rule upsert loop (`saveAppRules`), and the set-diff pruning
of rules and parameters (`pruneAppRules`, `pruneParameters`).

Modelling conventions:
- Go `*int32` identifier fields become `Option Int`; `oltypes.Int32 v` (a
  pointer to a fresh value) becomes `some v`; the Go cast `int32(x)` becomes
  `toInt32`, wrapping modulo 2^32 into the signed 32-bit range.
- Dereferencing a nil identifier pointer is a Go runtime panic; every function
  that can dereference one returns `Option`, with `none` meaning the execution
  faults. All other results are `some`.
- The `services.Repository` transport (an external collaborator per the spec)
  is a record of pure per-endpoint oracles; the JSON unmarshalling of response
  bodies (also external) is folded into the oracle result types, so a parent
  read or write yields an `App` and a rule write yields the parsed `id` map.
  `json.Unmarshal` of a response into `map[string]int` followed by indexing
  with key `id` yields the field value when present and 0 when absent.
- Every service function also returns the ordered trace of transport calls it
  issued, so that claims about which calls are and are not made are statable.
-/

namespace OneloginApps

/-- Go `int32(x)` conversion from `int`: wrap into `[-2^31, 2^31)`. -/
def toInt32 (n : Int) : Int := (n + 2 ^ 31) % 2 ^ 32 - 2 ^ 31

/-- Modelled from the spec: the child-item Rule record (its Go struct
declaration is outside `src/`): an optional integer identifier plus opaque
payload fields passed through unmodified. -/
structure AppRule where
  id : Option Int
  payload : Nat
deriving DecidableEq

/-- Modelled from the spec: the child-item Parameter record (its Go struct
declaration is outside `src/`): an optional integer identifier; other fields
are opaque and irrelevant to reconciliation. -/
structure AppParameters where
  id : Option Int
deriving DecidableEq

/-- Modelled from the spec: the parent App record (its Go struct declaration
is outside `src/`): optional integer identifier, a rules collection, and a
keyed parameters collection (Go `map[string]AppParameters`, embedded as an
association list). Scalar attributes are irrelevant to reconciliation. -/
structure App where
  id : Option Int
  rules : List AppRule
  parameters : List (String × AppParameters)
deriving DecidableEq

/-- The Go zero value of `App` (`var newApp App`): nil identifier, nil
collections. -/
def emptyApp : App := { id := none, rules := [], parameters := [] }

/-- A rule create/update response body, as unmarshalled into
`map[string]int`: only the `id` key matters, absent when the body carries no
such key. -/
structure RuleResp where
  idField : Option Int
deriving DecidableEq

/-- Go `ruleID["id"]` on the unmarshalled `map[string]int`: the value when the
key is present, the zero value 0 when absent. -/
def parseRuleID (resp : RuleResp) : Int := resp.idField.getD 0

/-- An error value returned to the caller: either a single transport error or
a stacked aggregate of per-item messages. -/
inductive SvcError where
  | transport (msg : String)
  | stacked (msgs : List String)
deriving DecidableEq

/-- Modelled from the spec: `customerrors.StackErrors` (package
`internal/customerrors` is outside `src/`): returns no error for an empty
input; otherwise wraps all collected errors into one compound value,
preserving encounter order, never discarding or deduplicating. -/
def StackErrors (errs : List String) : Option SvcError :=
  if errs.isEmpty then none else some (SvcError.stacked errs)

/-- One transport call, identified by verb and endpoint arguments, as issued
by the service functions. -/
inductive Call where
  | createApp (app : App)
  | updateApp (id : Int) (app : App)
  | readApp (id : Int)
  | readRules (appId : Int)
  | createRule (appId : Int) (rule : AppRule)
  | updateRule (appId : Int) (ruleId : Int) (rule : AppRule)
  | destroyRule (appId : Int) (ruleId : Int)
  | destroyParam (appId : Int) (paramId : Int)
deriving DecidableEq

/-- The transport port (`services.Repository`, an external collaborator): one
pure oracle per endpoint the apps v2 service talks to, with unmarshalling of
the raw response bytes folded in. -/
structure Transport where
  createApp : App → Except String App
  updateApp : Int → App → Except String App
  readApp : Int → Except String App
  readRules : Int → Except String (List AppRule)
  createRule : Int → AppRule → Except String RuleResp
  updateRule : Int → Int → AppRule → Except String RuleResp
  destroyRule : Int → Int → Except String Unit
  destroyParam : Int → Int → Except String Unit

/-- One iteration of the `saveAppRules` loop body for a rule, given the
already dereferenced parent identifier: update when the rule carries an
identifier, create otherwise; on success overwrite the rule's identifier with
the parsed response `id`. Returns the call issued, the error if the call
failed, and the rule as left by the iteration. -/
def saveRuleStep (t : Transport) (appId : Int) (r : AppRule) :
    Call × Option String × AppRule :=
  match r.id with
  | some rid =>
    match t.updateRule appId rid r with
    | Except.ok resp =>
      (Call.updateRule appId rid r, none,
        { r with id := some (toInt32 (parseRuleID resp)) })
    | Except.error e => (Call.updateRule appId rid r, some e, r)
  | none =>
    match t.createRule appId r with
    | Except.ok resp =>
      (Call.createRule appId r, none,
        { r with id := some (toInt32 (parseRuleID resp)) })
    | Except.error e => (Call.createRule appId r, some e, r)

/-- The `saveAppRules` loop over the rules collection. The parent identifier
is dereferenced inside each iteration (as in the Go URL construction), so an
absent parent identifier faults only when there is at least one rule. Returns
the rules as mutated, the calls issued, and the collected write errors, in
collection order. -/
def saveLoop (t : Transport) (appIdOpt : Option Int) :
    List AppRule → Option (List AppRule × List Call × List String)
  | [] => some ([], [], [])
  | r :: rest =>
    match appIdOpt with
    | none => none
    | some appId =>
      match saveRuleStep t appId r with
      | (call, errOpt, r2) =>
        match saveLoop t appIdOpt rest with
        | none => none
        | some (rules2, calls, errs) =>
          some (r2 :: rules2, call :: calls,
            match errOpt with
            | some e => e :: errs
            | none => errs)

/-- `saveAppRules`: upsert every rule of the app, continuing past failures,
binding parsed identifiers back into the rules, and stacking the collected
per-rule errors. -/
def saveAppRules (t : Transport) (app : App) :
    Option (App × List Call × Option SvcError) :=
  match saveLoop t app.id app.rules with
  | none => none
  | some (rules2, calls, errs) =>
    some ({ app with rules := rules2 }, calls, StackErrors errs)

/-- The Keep-Set build of `pruneAppRules`: `keepMap[*rule.ID] = true` for each
requested rule, faulting on an absent identifier. -/
def keepIds : List AppRule → Option (List Int)
  | [] => some []
  | r :: rest =>
    match r.id with
    | none => none
    | some i =>
      match keepIds rest with
      | none => none
      | some ids => some (i :: ids)

/-- The delete loop of `pruneAppRules`: for each remote rule (faulting on an
absent identifier), destroy it unless its identifier is kept, collecting
per-item destroy failures. -/
def pruneRulesLoop (t : Transport) (appId : Int) (keep : List Int) :
    List AppRule → Option (List Call × List String)
  | [] => some ([], [])
  | c :: rest =>
    match c.id with
    | none => none
    | some cid =>
      if keep.contains cid then pruneRulesLoop t appId keep rest
      else
        match t.destroyRule appId cid, pruneRulesLoop t appId keep rest with
        | _, none => none
        | Except.ok _, some (calls, errs) =>
          some (Call.destroyRule appId cid :: calls, errs)
        | Except.error e, some (calls, errs) =>
          some (Call.destroyRule appId cid :: calls, e :: errs)

/-- `pruneAppRules`: re-read the remote rules (discarding a read error, which
leaves the remote set empty), build the Keep-Set from the requested rules,
destroy every remote rule not kept, and stack the destroy errors. The parent
identifier is dereferenced up front for the read URL. -/
def pruneAppRules (t : Transport) (requestedRules : List AppRule) (app : App) :
    Option (List Call × Option SvcError) :=
  match app.id with
  | none => none
  | some appId =>
    let savedRules :=
      match t.readRules appId with
      | Except.ok rules => rules
      | Except.error _ => []
    match keepIds requestedRules with
    | none => none
    | some keep =>
      match pruneRulesLoop t appId keep savedRules with
      | none => none
      | some (calls, errs) =>
        some (Call.readRules appId :: calls, StackErrors errs)

/-- The Keep-Set build of `pruneParameters`: `keepMap[*param.ID] = true` for
each requested parameter, faulting on an absent identifier. -/
def keepParamIds : List (String × AppParameters) → Option (List Int)
  | [] => some []
  | p :: rest =>
    match p.2.id with
    | none => none
    | some i =>
      match keepParamIds rest with
      | none => none
      | some ids => some (i :: ids)

/-- The delete loop of `pruneParameters`: the parent identifier is
dereferenced only when a destroy request is actually constructed. -/
def pruneParamsLoop (t : Transport) (appIdOpt : Option Int) (keep : List Int) :
    List (String × AppParameters) → Option (List Call × List String)
  | [] => some ([], [])
  | c :: rest =>
    match c.2.id with
    | none => none
    | some cid =>
      if keep.contains cid then pruneParamsLoop t appIdOpt keep rest
      else
        match appIdOpt with
        | none => none
        | some appId =>
          match t.destroyParam appId cid, pruneParamsLoop t appIdOpt keep rest with
          | _, none => none
          | Except.ok _, some (calls, errs) =>
            some (Call.destroyParam appId cid :: calls, errs)
          | Except.error e, some (calls, errs) =>
            some (Call.destroyParam appId cid :: calls, e :: errs)

/-- `pruneParameters`: build the Keep-Set from the requested parameters, then
destroy every parameter held on the (already updated) app object whose
identifier is not kept, stacking the destroy errors. No separate remote read:
the app object already carries the remote parameter state. -/
def pruneParameters (t : Transport)
    (requestedParams : List (String × AppParameters)) (app : App) :
    Option (List Call × Option SvcError) :=
  match keepParamIds requestedParams with
  | none => none
  | some keep =>
    match pruneParamsLoop t app.id keep app.parameters with
    | none => none
    | some (calls, errs) => some (calls, StackErrors errs)

/-- `GetOne`: read the app, then (dereferencing the identifier of the app as
unmarshalled) read its rules; a rules-read failure still returns the app
alongside the error. -/
def GetOne (t : Transport) (id : Int) :
    Option (Option App × Option SvcError × List Call) :=
  match t.readApp id with
  | Except.error e => some (none, some (SvcError.transport e), [Call.readApp id])
  | Except.ok app0 =>
    match app0.id with
    | none => none
    | some appId =>
      match t.readRules appId with
      | Except.error e =>
        some (some app0, some (SvcError.transport e),
          [Call.readApp id, Call.readRules appId])
      | Except.ok rules =>
        some (some { app0 with rules := rules }, none,
          [Call.readApp id, Call.readRules appId])

/-- `Create`: transport-create the parent (on failure return the zero-value
app with the error), attach the caller's rules, upsert them; on upsert failure
recovery-read (returning the recovered app with the original error, or no app
with the original error when the recovery read fails too); on full success
return a final fresh read. -/
def Create (t : Transport) (app : App) :
    Option (Option App × Option SvcError × List Call) :=
  match t.createApp app with
  | Except.error e =>
    some (some emptyApp, some (SvcError.transport e), [Call.createApp app])
  | Except.ok newApp0 =>
    let newApp := { newApp0 with rules := app.rules }
    match saveAppRules t newApp with
    | none => none
    | some (savedApp, saveCalls, saveErrOpt) =>
      let calls0 := Call.createApp app :: saveCalls
      match savedApp.id with
      | none => none
      | some appId =>
        match saveErrOpt with
        | some saveErr =>
          match GetOne t appId with
          | none => none
          | some (recovered, recoverErr, getCalls) =>
            match recoverErr with
            | some _ => some (none, some saveErr, calls0 ++ getCalls)
            | none => some (recovered, some saveErr, calls0 ++ getCalls)
        | none =>
          match GetOne t appId with
          | none => none
          | some (result, errOpt, getCalls) =>
            some (result, errOpt, calls0 ++ getCalls)

/-- `Update`: transport-update the parent (on failure return the zero-value
app with the error), attach the caller's rules, upsert them with the same
recovery policy as `Create`; on upsert success run both prunes (the rules
prune sees the rules as mutated by the upsert, through the shared slice
backing array; the parameters prune keeps the caller's requested parameters
and prunes the parameters returned on the updated app); if either prune
failed, recovery-read and return the recovered app with the rules-prune error
first — but when that recovery read fails the function returns the still-nil
`err` variable, i.e. no app and no error; on full success return a final
fresh read. -/
def Update (t : Transport) (id : Int) (app : App) :
    Option (Option App × Option SvcError × List Call) :=
  match t.updateApp id app with
  | Except.error e =>
    some (some emptyApp, some (SvcError.transport e), [Call.updateApp id app])
  | Except.ok upd0 =>
    let updatedApp := { upd0 with rules := app.rules }
    match saveAppRules t updatedApp with
    | none => none
    | some (savedApp, saveCalls, saveErrOpt) =>
      let calls0 := Call.updateApp id app :: saveCalls
      match saveErrOpt with
      | some saveErr =>
        match savedApp.id with
        | none => none
        | some appId =>
          match GetOne t appId with
          | none => none
          | some (recovered, recoverErr, getCalls) =>
            match recoverErr with
            | some _ => some (none, some saveErr, calls0 ++ getCalls)
            | none => some (recovered, some saveErr, calls0 ++ getCalls)
      | none =>
        match pruneAppRules t savedApp.rules savedApp with
        | none => none
        | some (pruneRuleCalls, pruneRuleErr) =>
          match pruneParameters t app.parameters savedApp with
          | none => none
          | some (pruneParamCalls, pruneParamErr) =>
            let calls1 := calls0 ++ pruneRuleCalls ++ pruneParamCalls
            match savedApp.id with
            | none => none
            | some appId =>
              if pruneRuleErr.isSome || pruneParamErr.isSome then
                match GetOne t appId with
                | none => none
                | some (recovered, recoverErr, getCalls) =>
                  match recoverErr with
                  | some _ => some (none, none, calls1 ++ getCalls)
                  | none =>
                    match pruneRuleErr with
                    | some e => some (recovered, some e, calls1 ++ getCalls)
                    | none => some (recovered, pruneParamErr, calls1 ++ getCalls)
              else
                match GetOne t appId with
                | none => none
                | some (result, errOpt, getCalls) =>
                  some (result, errOpt, calls1 ++ getCalls)

/-- Identifiers of the rule-destroy calls in a trace, in order. -/
def destroyedRuleIds (calls : List Call) : List Int :=
  calls.filterMap fun c =>
    match c with
    | Call.destroyRule _ rid => some rid
    | _ => none

/-! ## Structural lemmas about the loops -/

/-- With a present parent identifier, the upsert loop processes every rule:
the mutated rules, the calls and the collected errors are the pointwise
images of the input rules, in collection order. -/
theorem saveLoop_eq (t : Transport) (appId : Int) (rules : List AppRule) :
    saveLoop t (some appId) rules =
      some (rules.map (fun r => (saveRuleStep t appId r).2.2),
            rules.map (fun r => (saveRuleStep t appId r).1),
            rules.filterMap (fun r => (saveRuleStep t appId r).2.1)) := by
  induction rules with
  | nil => rfl
  | cons r rest ih =>
    simp only [saveLoop, ih, List.map_cons, List.filterMap_cons]
    cases h : (saveRuleStep t appId r).2.1 <;> simp [h]

/-- When every remote rule carries an identifier, the prune loop issues one
destroy for each remote identifier outside the keep set, in order, and no
other call. -/
theorem pruneRulesLoop_eq (t : Transport) (appId : Int) (keep : List Int)
    (saved : List AppRule) (h : ∀ r ∈ saved, r.id ≠ none) :
    ∃ errs, pruneRulesLoop t appId keep saved =
      some (((saved.filterMap (fun r => r.id)).filter
              (fun i => !(keep.contains i))).map (Call.destroyRule appId), errs) := by
  induction saved with
  | nil => exact ⟨[], rfl⟩
  | cons c rest ih =>
    obtain ⟨errs, hrest⟩ := ih (fun r hr => h r (List.mem_cons_of_mem _ hr))
    cases hcid : c.id with
    | none => exact absurd hcid (h c (List.mem_cons_self _ _))
    | some cid =>
      by_cases hk : cid ∈ keep
      · exact ⟨errs, by simp [pruneRulesLoop, hcid, hk, hrest, List.filter_cons]⟩
      · cases hd : t.destroyRule appId cid with
        | ok u =>
          exact ⟨errs,
            by simp [pruneRulesLoop, hcid, hk, hrest, hd, List.filter_cons]⟩
        | error e =>
          exact ⟨e :: errs,
            by simp [pruneRulesLoop, hcid, hk, hrest, hd, List.filter_cons]⟩

/-- Destroy calls mapped from an identifier list decode back to that list. -/
theorem destroyedRuleIds_map (appId : Int) (l : List Int) :
    destroyedRuleIds (l.map (Call.destroyRule appId)) = l := by
  induction l with
  | nil => rfl
  | cons x xs ih => simpa [destroyedRuleIds, List.filterMap_cons] using ih

/-! ## Claim C1 -/

/-- Claim C1: for every remote rule set (all carrying identifiers, as
persisted items do) and every desired rule set whose items all carry present
identifiers, `pruneAppRules` issues a Destroy for exactly those remote rules
whose identifier does not occur among the desired identifiers, and never for
a rule whose identifier is desired: the destroyed identifiers are precisely
the remote identifiers filtered to those outside the Keep-Set. -/
theorem pruneAppRules_destroys_exactly_unkept
    (t : Transport) (app : App) (appId : Int) (requested saved : List AppRule)
    (reqIds : List Int)
    (happ : app.id = some appId)
    (hread : t.readRules appId = Except.ok saved)
    (hkeep : keepIds requested = some reqIds)
    (hsaved : ∀ r ∈ saved, r.id ≠ none) :
    ∃ calls errOpt, pruneAppRules t requested app = some (calls, errOpt) ∧
      destroyedRuleIds calls =
        (saved.filterMap (fun r => r.id)).filter (fun i => !(reqIds.contains i)) := by
  obtain ⟨errs, hloop⟩ := pruneRulesLoop_eq t appId reqIds saved hsaved
  refine ⟨Call.readRules appId ::
      (((saved.filterMap (fun r => r.id)).filter
        (fun i => !(reqIds.contains i))).map (Call.destroyRule appId)),
    StackErrors errs, ?_, ?_⟩
  · simp only [pruneAppRules, happ, hread, hkeep, hloop]
  · exact destroyedRuleIds_map appId _

/-- Remote rules `{1, 2, 3}` for the app with identifier 9. -/
def savedC1 : List AppRule :=
  [{ id := some 1, payload := 0 }, { id := some 2, payload := 0 },
   { id := some 3, payload := 0 }]

/-- Desired rules with identifiers `{2, 3}`. -/
def requestedC1 : List AppRule :=
  [{ id := some 2, payload := 0 }, { id := some 3, payload := 0 }]

/-- A transport whose every endpoint fails; concrete scenarios override the
endpoints they exercise. -/
def tFail : Transport where
  createApp := fun _ => Except.error "unused"
  updateApp := fun _ _ => Except.error "unused"
  readApp := fun _ => Except.error "unused"
  readRules := fun _ => Except.error "unused"
  createRule := fun _ _ => Except.error "unused"
  updateRule := fun _ _ _ => Except.error "unused"
  destroyRule := fun _ _ => Except.error "unused"
  destroyParam := fun _ _ => Except.error "unused"

/-- Transport for the C1 scenario: the remote rules read returns `{1, 2, 3}`
and destroys succeed. -/
def tC1 : Transport :=
  { tFail with
    readRules := fun _ => Except.ok savedC1
    destroyRule := fun _ _ => Except.ok () }

/-- The app under reconciliation in the C1 scenario. -/
def appC1 : App := { id := some 9, rules := requestedC1, parameters := [] }

/-- Witness for C1: at remote identifiers `{1, 2, 3}` and desired identifiers
`{2, 3}`, exactly identifier 1 is destroyed. -/
theorem pruneAppRules_destroys_exactly_unkept_witness :
    (appC1.id = some 9 ∧ tC1.readRules 9 = Except.ok savedC1 ∧
      keepIds requestedC1 = some [2, 3] ∧ (∀ r ∈ savedC1, r.id ≠ none)) ∧
    (∃ calls errOpt, pruneAppRules tC1 requestedC1 appC1 = some (calls, errOpt) ∧
      destroyedRuleIds calls = [1]) := by
  refine ⟨⟨rfl, rfl, rfl, by decide⟩, ?_⟩
  obtain ⟨calls, errOpt, h1, h2⟩ :=
    pruneAppRules_destroys_exactly_unkept tC1 appC1 9 requestedC1 savedC1 [2, 3]
      rfl rfl rfl (by decide)
  exact ⟨calls, errOpt, h1, by rw [h2]; rfl⟩

/-! ## Claim C2 -/

/-- `StackErrors` yields no error exactly on an empty error list. -/
theorem StackErrors_eq_none_iff (errs : List String) :
    StackErrors errs = none ↔ errs = [] := by
  cases errs <;> simp [StackErrors]

/-- Claim C2: for every list of desired rules (on an app whose identifier is
present), `saveAppRules` attempts the transport call for every rule in
collection order regardless of earlier failures — the issued calls are the
pointwise attempts on all rules — the aggregated error stacks exactly the
per-rule failures in order, and it is `none` exactly when no per-rule call
failed. -/
theorem saveAppRules_attempts_all (t : Transport) (app : App) (appId : Int)
    (happ : app.id = some appId) :
    saveAppRules t app =
      some ({ app with
                rules := app.rules.map (fun r => (saveRuleStep t appId r).2.2) },
        app.rules.map (fun r => (saveRuleStep t appId r).1),
        StackErrors (app.rules.filterMap (fun r => (saveRuleStep t appId r).2.1))) ∧
    (StackErrors (app.rules.filterMap (fun r => (saveRuleStep t appId r).2.1)) = none ↔
      ∀ r ∈ app.rules, (saveRuleStep t appId r).2.1 = none) := by
  constructor
  · simp only [saveAppRules, happ, saveLoop_eq]
  · rw [StackErrors_eq_none_iff]
    exact List.filterMap_eq_nil_iff

/-- Three desired rules, all identified, for the C2 scenario. -/
def rulesC2 : List AppRule :=
  [{ id := some 1, payload := 0 }, { id := some 2, payload := 0 },
   { id := some 3, payload := 0 }]

/-- Transport for the C2 scenario: the update of rule 2 fails, the updates of
rules 1 and 3 succeed. -/
def tC2 : Transport :=
  { tFail with
    updateRule := fun _ rid _ =>
      if rid = 2 then Except.error "boom" else Except.ok { idField := some rid } }

/-- The app whose rules are upserted in the C2 scenario. -/
def appC2 : App := { id := some 7, rules := rulesC2, parameters := [] }

/-- Witness for C2: among three rules whose second transport call fails, the
third is still attempted (all three calls are issued, in order) and the
aggregated error contains exactly one constituent failure. -/
theorem saveAppRules_attempts_all_witness :
    appC2.id = some 7 ∧
    (saveAppRules tC2 appC2 =
      some ({ appC2 with
                rules := appC2.rules.map (fun r => (saveRuleStep tC2 7 r).2.2) },
        appC2.rules.map (fun r => (saveRuleStep tC2 7 r).1),
        StackErrors (appC2.rules.filterMap (fun r => (saveRuleStep tC2 7 r).2.1))) ∧
      (StackErrors (appC2.rules.filterMap (fun r => (saveRuleStep tC2 7 r).2.1)) = none ↔
        ∀ r ∈ appC2.rules, (saveRuleStep tC2 7 r).2.1 = none)) ∧
    appC2.rules.map (fun r => (saveRuleStep tC2 7 r).1) =
      [Call.updateRule 7 1 { id := some 1, payload := 0 },
       Call.updateRule 7 2 { id := some 2, payload := 0 },
       Call.updateRule 7 3 { id := some 3, payload := 0 }] ∧
    appC2.rules.filterMap (fun r => (saveRuleStep tC2 7 r).2.1) = ["boom"] :=
  ⟨rfl, saveAppRules_attempts_all tC2 appC2 7 rfl, by decide, by decide⟩

/-! ## Claim C3 -/

/-- The Go `int32` cast is the identity on values already in the signed
32-bit range. -/
theorem toInt32_eq_self (n : Int) (hlo : -(2 ^ 31) ≤ n) (hhi : n < 2 ^ 31) :
    toInt32 n = n := by
  unfold toInt32
  omega

/-- Claim C3: for every desired rule with an absent identifier whose Create
transport call succeeds, after `saveAppRules` returns, that rule's identifier
is present and equals the integer parsed from the `id` field of the Create
response body (an `int32` identifier value). -/
theorem saveAppRules_binds_created_id (t : Transport) (app : App) (appId : Int)
    (i : Nat) (hi : i < app.rules.length) (resp : RuleResp) (n : Int)
    (happ : app.id = some appId)
    (hid : (app.rules.get ⟨i, hi⟩).id = none)
    (hcall : t.createRule appId (app.rules.get ⟨i, hi⟩) = Except.ok resp)
    (hresp : resp.idField = some n)
    (hlo : -(2 ^ 31) ≤ n) (hhi : n < 2 ^ 31) :
    ∃ app2 calls errOpt, saveAppRules t app = some (app2, calls, errOpt) ∧
      ∃ hi2 : i < app2.rules.length, (app2.rules.get ⟨i, hi2⟩).id = some n := by
  refine ⟨{ app with
              rules := app.rules.map (fun r => (saveRuleStep t appId r).2.2) },
    app.rules.map (fun r => (saveRuleStep t appId r).1),
    StackErrors (app.rules.filterMap (fun r => (saveRuleStep t appId r).2.1)),
    by simp only [saveAppRules, happ, saveLoop_eq], ?_⟩
  have hi2 : i < (app.rules.map (fun r => (saveRuleStep t appId r).2.2)).length := by
    simpa using hi
  refine ⟨hi2, ?_⟩
  have hget : (app.rules.map (fun r => (saveRuleStep t appId r).2.2)).get ⟨i, hi2⟩ =
      (saveRuleStep t appId (app.rules.get ⟨i, hi⟩)).2.2 := by
    simp [List.getElem_map]
  rw [hget]
  simp only [List.get_eq_getElem] at hid hcall
  simp [saveRuleStep, hid, hcall, parseRuleID, hresp, toInt32_eq_self n hlo hhi]

/-- Transport for the C3 scenario: rule creation succeeds and the response
body carries `id = 42`. -/
def tC3 : Transport :=
  { tFail with
    createRule := fun _ _ => Except.ok { idField := some 42 } }

/-- The app of the C3 scenario: one desired rule with an absent identifier. -/
def appC3 : App :=
  { id := some 7, rules := [{ id := none, payload := 5 }], parameters := [] }

/-- Witness for C3: the new rule's identifier after `saveAppRules` is 42, the
`id` parsed from the Create response. -/
theorem saveAppRules_binds_created_id_witness :
    appC3.id = some 7 ∧
    (∃ app2 calls errOpt, saveAppRules tC3 appC3 = some (app2, calls, errOpt) ∧
      ∃ hi2 : 0 < app2.rules.length, (app2.rules.get ⟨0, hi2⟩).id = some 42) :=
  ⟨rfl, saveAppRules_binds_created_id tC3 appC3 7 0 (by decide)
    { idField := some 42 } 42 rfl rfl rfl rfl (by decide) (by decide)⟩

/-! ## Claim C4 -/

/-- Claim C4: in `Update`, when the parent-level transport update succeeds,
the rules upsert reports an aggregated error, and the recovery read succeeds,
the operation returns the recovered app object together with the original
upsert error, not the recovery read's result. -/
theorem Update_recovery_returns_original_error
    (t : Transport) (id appId : Int) (app upd0 savedApp recovered : App)
    (saveCalls getCalls : List Call) (saveErr : SvcError)
    (h1 : t.updateApp id app = Except.ok upd0)
    (h2 : saveAppRules t { upd0 with rules := app.rules } =
      some (savedApp, saveCalls, some saveErr))
    (h3 : savedApp.id = some appId)
    (h4 : GetOne t appId = some (some recovered, none, getCalls)) :
    Update t id app =
      some (some recovered, some saveErr,
        (Call.updateApp id app :: saveCalls) ++ getCalls) := by
  simp only [Update, h1, h2, h3, h4]

/-- The caller's app in the C4 scenario: one already identified rule. -/
def appC4 : App :=
  { id := some 1, rules := [{ id := some 10, payload := 0 }], parameters := [] }

/-- The parent object as returned by the transport update in C4. -/
def updC4 : App := { id := some 5, rules := [], parameters := [] }

/-- The app as left by the failed rules upsert in C4. -/
def savedAppC4 : App :=
  { id := some 5, rules := [{ id := some 10, payload := 0 }], parameters := [] }

/-- Transport for the C4 scenario: the parent update and both reads succeed,
the rule update fails. -/
def tC4 : Transport :=
  { tFail with
    updateApp := fun _ _ => Except.ok updC4
    updateRule := fun _ _ _ => Except.error "ruleboom"
    readApp := fun _ => Except.ok updC4
    readRules := fun _ => Except.ok [] }

/-- Witness for C4: `Update` returns the recovered app together with the
original stacked upsert error. -/
theorem Update_recovery_returns_original_error_witness :
    (tC4.updateApp 1 appC4 = Except.ok updC4 ∧
     saveAppRules tC4 { updC4 with rules := appC4.rules } =
       some (savedAppC4, [Call.updateRule 5 10 { id := some 10, payload := 0 }],
         some (SvcError.stacked ["ruleboom"])) ∧
     savedAppC4.id = some 5 ∧
     GetOne tC4 5 = some (some updC4, none, [Call.readApp 5, Call.readRules 5])) ∧
    Update tC4 1 appC4 =
      some (some updC4, some (SvcError.stacked ["ruleboom"]),
        (Call.updateApp 1 appC4 ::
          [Call.updateRule 5 10 { id := some 10, payload := 0 }]) ++
          [Call.readApp 5, Call.readRules 5]) :=
  ⟨⟨rfl, rfl, rfl, rfl⟩,
   Update_recovery_returns_original_error tC4 1 5 appC4 updC4 savedAppC4 updC4
     [Call.updateRule 5 10 { id := some 10, payload := 0 }]
     [Call.readApp 5, Call.readRules 5] (SvcError.stacked ["ruleboom"])
     rfl rfl rfl rfl⟩

/-! ## Claim C5 -/

/-- The caller's app in the C5 scenario: empty desired rules and parameters. -/
def appC5 : App := { id := some 1, rules := [], parameters := [] }

/-- Transport for the C5 scenario: the parent update succeeds, the remote set
holds rule 99, its destroy fails, and the recovery read of the app fails. -/
def tC5 : Transport :=
  { tFail with
    updateApp := fun _ _ => Except.ok { id := some 5, rules := [], parameters := [] }
    readRules := fun _ => Except.ok [{ id := some 99, payload := 0 }]
    destroyRule := fun _ _ => Except.error "delboom"
    readApp := fun _ => Except.error "readboom" }

/-- Claim C5 (code bug): in `Update`, when the rules prune fails and the
recovery read also fails, the code returns no app object and a `nil` error —
the still-nil upsert `err` variable — instead of reporting the original prune
failure: the prune reported `delboom`, the recovery read failed with
`readboom`, yet `Update` returns `(none, none)`. -/
theorem Update_prune_recovery_failure_drops_error :
    pruneAppRules tC5 [] { id := some 5, rules := [], parameters := [] } =
      some ([Call.readRules 5, Call.destroyRule 5 99],
        some (SvcError.stacked ["delboom"])) ∧
    GetOne tC5 5 =
      some (none, some (SvcError.transport "readboom"), [Call.readApp 5]) ∧
    Update tC5 1 appC5 =
      some (none, none,
        [Call.updateApp 1 appC5, Call.readRules 5, Call.destroyRule 5 99,
         Call.readApp 5]) :=
  ⟨rfl, rfl, rfl⟩

/-! ## Claim C6 -/

/-- Transport for the C6 scenario: the parent create fails. -/
def tC6 : Transport := { tFail with createApp := fun _ => Except.error "boom" }

/-- The caller's app in the C6 scenario. -/
def appC6 : App :=
  { id := none, rules := [{ id := none, payload := 1 }], parameters := [] }

/-- Counterexample to C6 as stated: when the parent-level transport Create
fails, `Create` does return an app object — a pointer to the zero-value app —
alongside the transport error, rather than returning no app at all. -/
theorem Create_parent_failure_cex :
    Create tC6 appC6 =
      some (some emptyApp, some (SvcError.transport "boom"),
        [Call.createApp appC6]) ∧
    some emptyApp ≠ (none : Option App) :=
  ⟨rfl, by decide⟩

/-- Claim C6 (amended): when the parent-level transport Create fails,
`Create` returns immediately with the transport error and a pointer to the
zero-value app object, and the trace holds only the parent create — no child
upsert or read call is issued. -/
theorem Create_parent_failure_returns_zero_app (t : Transport) (app : App)
    (e : String) (h : t.createApp app = Except.error e) :
    Create t app =
      some (some emptyApp, some (SvcError.transport e), [Call.createApp app]) := by
  simp only [Create, h]

/-- Witness for the amended C6. -/
theorem Create_parent_failure_returns_zero_app_witness :
    tC6.createApp appC6 = Except.error "boom" ∧
    Create tC6 appC6 =
      some (some emptyApp, some (SvcError.transport "boom"),
        [Call.createApp appC6]) :=
  ⟨rfl, Create_parent_failure_returns_zero_app tC6 appC6 "boom" rfl⟩

/-! ## Claim C7 -/

/-- Transport for the C7 scenario: the remote rules re-read fails. -/
def tC7 : Transport :=
  { tFail with readRules := fun _ => Except.error "readboom" }

/-- The app under pruning in the C7 scenario. -/
def appC7 : App := { id := some 1, rules := [], parameters := [] }

/-- Counterexample to C7 as stated: the claim quantifies over every desired
rule set, but on a desired rule whose identifier is absent, `pruneAppRules`
faults while building the Keep-Set (a nil-identifier dereference) instead of
returning no error after the failed re-read. -/
theorem pruneAppRules_read_failure_cex :
    tC7.readRules 1 = Except.error "readboom" ∧
    pruneAppRules tC7 [{ id := none, payload := 0 }] appC7 = none :=
  ⟨rfl, rfl⟩

/-- Claim C7 (amended): for every desired rule set whose items all carry
present identifiers, when the remote rules re-read inside `pruneAppRules`
fails, the prune proceeds with an empty remote set: it issues no Destroy
calls and returns no error, rather than surfacing the read failure. -/
theorem pruneAppRules_read_failure_noop (t : Transport) (app : App)
    (appId : Int) (e : String) (requested : List AppRule) (reqIds : List Int)
    (happ : app.id = some appId)
    (hread : t.readRules appId = Except.error e)
    (hkeep : keepIds requested = some reqIds) :
    pruneAppRules t requested app = some ([Call.readRules appId], none) := by
  simp [pruneAppRules, happ, hread, hkeep, pruneRulesLoop, StackErrors]

/-- Identified desired rules for the C7 witness. -/
def reqC7 : List AppRule := [{ id := some 4, payload := 0 }]

/-- Witness for the amended C7. -/
theorem pruneAppRules_read_failure_noop_witness :
    (appC7.id = some 1 ∧ tC7.readRules 1 = Except.error "readboom" ∧
      keepIds reqC7 = some [4]) ∧
    pruneAppRules tC7 reqC7 appC7 = some ([Call.readRules 1], none) :=
  ⟨⟨rfl, rfl, rfl⟩,
   pruneAppRules_read_failure_noop tC7 appC7 1 "readboom" reqC7 [4] rfl rfl rfl⟩

/-! ## Claim C8 -/

/-- A successful Keep-Set build yields exactly the requested identifiers and
certifies that every requested rule carries one. -/
theorem keepIds_eq_some (rules : List AppRule) (ids : List Int)
    (h : keepIds rules = some ids) :
    ids = rules.filterMap (fun r => r.id) ∧ ∀ r ∈ rules, r.id ≠ none := by
  induction rules generalizing ids with
  | nil =>
    simp only [keepIds, Option.some.injEq] at h
    simp [← h]
  | cons c rest ih =>
    cases hc : c.id with
    | none => simp [keepIds, hc] at h
    | some i =>
      cases hrest : keepIds rest with
      | none => simp [keepIds, hc, hrest] at h
      | some ids2 =>
        obtain ⟨h1, h2⟩ := ih ids2 hrest
        simp only [keepIds, hc, hrest, Option.some.injEq] at h
        subst h
        refine ⟨by simp [List.filterMap_cons, hc, h1], ?_⟩
        intro r hr
        rcases List.mem_cons.mp hr with rfl | hr2
        · simp [hc]
        · exact h2 r hr2

/-- When every remote rule's identifier is kept, the prune loop issues no
call and collects no error. -/
theorem pruneRulesLoop_all_kept (t : Transport) (appId : Int) (keep : List Int)
    (saved : List AppRule)
    (h : ∀ r ∈ saved, ∃ i, r.id = some i ∧ i ∈ keep) :
    pruneRulesLoop t appId keep saved = some ([], []) := by
  induction saved with
  | nil => rfl
  | cons c rest ih =>
    obtain ⟨i, hci, hik⟩ := h c (List.mem_cons_self _ _)
    simp [pruneRulesLoop, hci, hik,
      ih (fun r hr => h r (List.mem_cons_of_mem _ hr))]

/-- Claim C8: for a desired rule set in which every item carries a present
identifier and whose identifiers already equal the remote set's identifiers,
re-applying the reconciliation issues no Create call in `saveAppRules` and no
Destroy call (and no error) in `pruneAppRules`. -/
theorem reapply_idempotent (t : Transport) (app : App) (appId : Int)
    (reqIds : List Int) (saved : List AppRule)
    (happ : app.id = some appId)
    (hkeep : keepIds app.rules = some reqIds)
    (hread : t.readRules appId = Except.ok saved)
    (hsame : saved.filterMap (fun r => r.id) = reqIds)
    (hsaved : ∀ r ∈ saved, r.id ≠ none) :
    (∃ app2 calls errOpt, saveAppRules t app = some (app2, calls, errOpt) ∧
      ∀ aid rule, Call.createRule aid rule ∉ calls) ∧
    pruneAppRules t app.rules app = some ([Call.readRules appId], none) := by
  obtain ⟨hids, hnn⟩ := keepIds_eq_some app.rules reqIds hkeep
  constructor
  · refine ⟨{ app with
        rules := app.rules.map (fun r => (saveRuleStep t appId r).2.2) },
      app.rules.map (fun r => (saveRuleStep t appId r).1),
      StackErrors (app.rules.filterMap (fun r => (saveRuleStep t appId r).2.1)),
      by simp only [saveAppRules, happ, saveLoop_eq], ?_⟩
    intro aid rule hmem
    rw [List.mem_map] at hmem
    obtain ⟨r, hr, heq⟩ := hmem
    cases hrid : r.id with
    | none => exact (hnn r hr) hrid
    | some rid =>
      cases hcall : t.updateRule appId rid r with
      | ok resp => simp [saveRuleStep, hrid, hcall] at heq
      | error e => simp [saveRuleStep, hrid, hcall] at heq
  · have hall : ∀ r ∈ saved, ∃ i, r.id = some i ∧ i ∈ reqIds := by
      intro r hr
      cases hrid : r.id with
      | none => exact absurd hrid (hsaved r hr)
      | some i =>
        exact ⟨i, rfl, by rw [← hsame]; exact List.mem_filterMap.mpr ⟨r, hr, hrid⟩⟩
    simp [pruneAppRules, happ, hread, hkeep,
      pruneRulesLoop_all_kept t appId reqIds saved hall, StackErrors]

/-- The fully identified desired rules of the C8 scenario. -/
def rulesC8 : List AppRule :=
  [{ id := some 2, payload := 0 }, { id := some 3, payload := 0 }]

/-- Transport for the C8 scenario: the remote set already equals the desired
identifiers and rule updates succeed. -/
def tC8 : Transport :=
  { tFail with
    readRules := fun _ => Except.ok rulesC8
    updateRule := fun _ rid _ => Except.ok { idField := some rid } }

/-- The app of the C8 scenario. -/
def appC8 : App := { id := some 9, rules := rulesC8, parameters := [] }

/-- Witness for C8: re-applying the desired set `{2, 3}` over remote `{2, 3}`
issues no Create and no Destroy. -/
theorem reapply_idempotent_witness :
    (appC8.id = some 9 ∧ keepIds appC8.rules = some [2, 3] ∧
      tC8.readRules 9 = Except.ok rulesC8 ∧
      rulesC8.filterMap (fun r => r.id) = [2, 3] ∧
      (∀ r ∈ rulesC8, r.id ≠ none)) ∧
    ((∃ app2 calls errOpt, saveAppRules tC8 appC8 = some (app2, calls, errOpt) ∧
      ∀ aid rule, Call.createRule aid rule ∉ calls) ∧
    pruneAppRules tC8 appC8.rules appC8 = some ([Call.readRules 9], none)) :=
  ⟨⟨rfl, rfl, rfl, rfl, by decide⟩,
   reapply_idempotent tC8 appC8 9 [2, 3] rulesC8 rfl rfl rfl rfl (by decide)⟩

/-! ## Claim C9 -/

/-- Transport for the C9 scenario: the remote reads succeed (the fault is in
the Keep-Set build, not the transport). -/
def tC9 : Transport := { tFail with readRules := fun _ => Except.ok [] }

/-- The app of the C9 scenario. -/
def appC9 : App :=
  { id := some 3, rules := [], parameters := [("q", { id := some 1 })] }

/-- Claim C9 (code bug): contrary to the claim, the Keep-Set build does not
exclude items with absent identifiers gracefully — both `pruneAppRules` and
`pruneParameters` dereference the absent identifier of a desired item and
fault (a nil-pointer dereference in the Go code), here on a desired set with
one unidentified item each. -/
theorem keep_set_build_faults_on_absent_id :
    pruneAppRules tC9 [{ id := none, payload := 0 }] appC9 = none ∧
    pruneParameters tC9 [("p", { id := none })] appC9 = none :=
  ⟨rfl, rfl⟩

/-! ## Claim C10 -/

/-- Claim C10: in `saveAppRules`, a rule whose transport call succeeds —
including an Update of an already identified rule — has its identifier
unconditionally overwritten with the `int32` of the integer parsed from the
response body's `id` field; when the successful response has no `id` key the
identifier becomes present 0, losing the rule's real identifier. -/
theorem saveAppRules_overwrites_updated_id (t : Transport) (app : App)
    (appId : Int) (i : Nat) (hi : i < app.rules.length) (rid : Int)
    (resp : RuleResp)
    (happ : app.id = some appId)
    (hid : (app.rules.get ⟨i, hi⟩).id = some rid)
    (hcall : t.updateRule appId rid (app.rules.get ⟨i, hi⟩) = Except.ok resp) :
    ∃ app2 calls errOpt, saveAppRules t app = some (app2, calls, errOpt) ∧
      ∃ hi2 : i < app2.rules.length,
        (app2.rules.get ⟨i, hi2⟩).id = some (toInt32 (parseRuleID resp)) ∧
        (resp.idField = none → (app2.rules.get ⟨i, hi2⟩).id = some 0) := by
  refine ⟨{ app with
              rules := app.rules.map (fun r => (saveRuleStep t appId r).2.2) },
    app.rules.map (fun r => (saveRuleStep t appId r).1),
    StackErrors (app.rules.filterMap (fun r => (saveRuleStep t appId r).2.1)),
    by simp only [saveAppRules, happ, saveLoop_eq], ?_⟩
  have hi2 : i < (app.rules.map (fun r => (saveRuleStep t appId r).2.2)).length := by
    simpa using hi
  refine ⟨hi2, ?_, ?_⟩
  all_goals
    have hget : (app.rules.map
        (fun r => (saveRuleStep t appId r).2.2)).get ⟨i, hi2⟩ =
        (saveRuleStep t appId (app.rules.get ⟨i, hi⟩)).2.2 := by
      simp [List.getElem_map]
    simp only [List.get_eq_getElem] at hid hcall
  · rw [hget]
    simp [saveRuleStep, hid, hcall]
  · intro hnone
    rw [hget]
    simp [saveRuleStep, hid, hcall, parseRuleID, hnone, toInt32]

/-- Transport for the C10 scenario: the rule update succeeds but its response
body carries no `id` key. -/
def tC10 : Transport :=
  { tFail with updateRule := fun _ _ _ => Except.ok { idField := none } }

/-- The app of the C10 scenario: one rule already identified as 5. -/
def appC10 : App :=
  { id := some 7, rules := [{ id := some 5, payload := 0 }], parameters := [] }

/-- Witness for C10: after a successful update whose response lacks an `id`
key, the rule that carried identifier 5 ends with identifier 0. -/
theorem saveAppRules_overwrites_updated_id_witness :
    appC10.id = some 7 ∧
    (∃ app2 calls errOpt, saveAppRules tC10 appC10 = some (app2, calls, errOpt) ∧
      ∃ hi2 : 0 < app2.rules.length,
        (app2.rules.get ⟨0, hi2⟩).id = some (toInt32 (parseRuleID { idField := none })) ∧
        (({ idField := none } : RuleResp).idField = none →
          (app2.rules.get ⟨0, hi2⟩).id = some 0)) :=
  ⟨rfl, saveAppRules_overwrites_updated_id tC10 appC10 7 0 (by decide) 5
    { idField := none } rfl rfl rfl⟩

end OneloginApps
